import Mathlib

/-!
Verification of the py-schemax rule-based validation engine.

This file shallowly embeds the core of the repository:
  * `schema/dataset.py` — the `DatasetSchema` model and the six column-kind
    variants, as field descriptors;
  * `model.py` — `get_dynamic_dataset_schema` / `get_dynamic_data_types`,
    the per-run builder that promotes configured fields to required;
  * `validator.py` — `FileValidator`, `PydanticSchemaValidator` (including
    the location and message formatters), `UniqueFQNValidator` and
    `DependencyValidator`;
  * `utils.py` — `merge_validation_outputs`;
  * `rulesets.py` / `cli.py` — rule selection and the per-file pipeline.

The structural walk performed by the external pydantic library is modelled
from the specification of the Structural Validator together with the error
catalogue that the source's formatter dispatches on.
-/

namespace PySchemax

/-- A parsed JSON/YAML tree (the generic value handed to validators).
Objects are association lists; the engine never relies on key multiplicity. -/
inductive JValue where
  | jnull : JValue
  | jbool : Bool → JValue
  | jint : Int → JValue
  | jstr : String → JValue
  | jarr : List JValue → JValue
  | jobj : List (String × JValue) → JValue
deriving Repr

/-- One component of a pydantic error location: a list index or an object key. -/
inductive LocItem where
  | idx : Nat → LocItem
  | key : String → LocItem
deriving Repr, DecidableEq

/-- A pydantic `ErrorDetails` record as consumed by the formatters in
`validator.py`: the error `type`, the `loc` tuple, the raw `msg`, and the
two `ctx` entries the source reads for discriminated-union failures. -/
structure ErrorDetails where
  etype : String
  loc : List LocItem
  msg : String
  ctxDiscriminator : Option String := none
  ctxExpectedTags : Option String := none
deriving Repr, DecidableEq

/-- Embeds `schema/validation.py` `PydanticErrorSchema`: the stripped `{type, msg}` pair. -/
structure PydanticErrorSchema where
  ptype : String
  msg : String
deriving Repr, DecidableEq

/-- Embeds `schema/validation.py` `ValidationErrorSchema`. -/
structure ValidationErrorSchema where
  etype : String
  error_at : String
  message : String
  pydantic_error : Option PydanticErrorSchema
deriving Repr, DecidableEq

/-- Embeds `schema/validation.py` `ValidationOutputSchema`. -/
structure ValidationOutputSchema where
  file_path : String
  valid : Bool
  error_count : Nat
  errors : List ValidationErrorSchema
deriving Repr, DecidableEq

/-- The names of the `SupportedDataTypes` enum members (`model.py`), in
declaration order. -/
def supportedDataTypeNames : List String :=
  ["string", "integer", "float", "boolean", "date", "datetime"]

/-- Python `str.strip` with a single apostrophe argument: drop every leading
and trailing apostrophe character. -/
def stripApostrophes (s : String) : String :=
  let cs := s.toList.dropWhile (· = '\'')
  String.mk ((cs.reverse.dropWhile (· = '\'')).reverse)

/-- Python `str.lower`, character-wise (the suffixes and lax boolean
strings compared here are ASCII). -/
def strToLower (s : String) : String :=
  String.mk (s.toList.map Char.toLower)

/-- Decimal digits to a number; `none` on a non-digit or the empty list. -/
def natOfDigits : List Char → Option Nat
  | [] => none
  | cs => cs.foldl (fun acc c => acc.bind fun a =>
      if c.isDigit then some (a * 10 + (c.toNat - 48)) else none) (some 0)

/-- Python `int(s)` as used by the lax integer coercion: an optional sign
followed by decimal digits. -/
def strToInt? (s : String) : Option Int :=
  match s.toList with
  | '-' :: rest => (natOfDigits rest).map fun n => -(n : Int)
  | cs => (natOfDigits cs).map Int.ofNat

/-- Render a `loc` item as Python string interpolation would. -/
def locItemStr : LocItem → String
  | .idx n => toString n
  | .key s => s

/-- Embeds `PydanticSchemaValidator.__format_loc_as_jsonql` (`validator.py`):
build a JSONPath-like string from the error location, skipping every
string segment that is a supported data-type name, and appending the
stripped discriminator for `union_tag_invalid` errors. -/
def format_loc_as_jsonql (error : ErrorDetails) : String :=
  let base := error.loc.foldl
    (fun acc item =>
      match item with
      | .idx n => acc ++ "[" ++ toString n ++ "]"
      | .key s =>
          if supportedDataTypeNames.contains s then acc else acc ++ "." ++ s)
    "$"
  if error.etype = "union_tag_invalid" then
    base ++ "." ++ stripApostrophes (error.ctxDiscriminator.getD "")
  else
    base

/-- Embeds `error["type"].split("_")[0]` from the source's type-mismatch cases:
the segment before the first underscore. -/
def errTypeHead (etype : String) : String :=
  String.mk (etype.toList.takeWhile (· ≠ '_'))

/-- Embeds `PydanticSchemaValidator.__format_pydantic_error_as_text` (`validator.py`):
synthesize the human-readable message from the error type and location
(`loc[-1]` / `loc[-2]` are modelled with total accessors; every branch that
reads them first checks the length, exactly as the source does). -/
def format_pydantic_error_as_text (error : ErrorDetails) : String :=
  let loc := if error.loc.isEmpty then [LocItem.key "$"] else error.loc
  let locLength := loc.length
  let locLast := locItemStr (loc.getLastD (LocItem.key ""))
  let locMinus2 := locItemStr ((loc.get? (locLength - 2)).getD (LocItem.key ""))
  match error.etype with
  | "extra_forbidden" =>
      if locLength > 1 ∧ supportedDataTypeNames.contains locMinus2 then
        "'" ++ locLast ++ "' invalid attribute for '" ++ locMinus2 ++ "' type"
      else if locLength = 1 then
        "invalid attribute '" ++ locLast ++ "' provided"
      else error.msg
  | "missing" =>
      if locLength > 0 then "'" ++ locLast ++ "' attribute missing"
      else error.msg
  | "int_parsing" | "int_from_float" | "float_parsing" | "bool_parsing" =>
      if locLength > 0 then
        "'" ++ locLast ++ "' expected to be '" ++ errTypeHead error.etype ++ "' type"
      else error.msg
  | "int_type" | "float_type" | "string_type" | "list_type" | "model_type" =>
      if locLength > 0 then
        let expType := errTypeHead error.etype
        let expType := if expType = "model" then "object" else expType
        "'" ++ locLast ++ "' expected to be '" ++ expType ++ "' type"
      else error.msg
  | "union_tag_invalid" =>
      let expectedTags := error.ctxExpectedTags.getD ""
      let discriminator := stripApostrophes (error.ctxDiscriminator.getD "")
      if expectedTags ≠ "" then
        "'" ++ discriminator ++ "' expected to be one of [" ++ expectedTags ++ "]"
      else error.msg
  | "union_tag_not_found" => "'type' attribute missing"
  | _ => error.msg

/-- The pydantic field annotations occurring in `schema/dataset.py`:
`str`, `int`, `float`, `bool`, a `Literal` tag, `Optional[...]`,
`List[str]`, `Dict[str, Any]`, and the column list `List[DataTypeUnion]`. -/
inductive FType where
  | tstr : FType
  | tint : FType
  | tfloat : FType
  | tbool : FType
  | tlit : String → FType
  | topt : FType → FType
  | tlistStr : FType
  | tdictAny : FType
  | tcolumns : FType
deriving Repr, DecidableEq

/-- One entry of a pydantic model's `model_fields`: the field name, its
annotation, and whether it is required (declared with `Field(...)`, i.e. no
default). -/
structure FieldSpec where
  fname : String
  ftype : FType
  required : Bool
deriving Repr, DecidableEq

/-- Embeds `BaseDataType.model_fields` (`schema/dataset.py`): the attributes shared
by all column kinds, in declaration order. -/
def BaseDataType.model_fields : List FieldSpec :=
  [⟨"name", .tstr, true⟩,
   ⟨"unique", .tbool, false⟩,
   ⟨"primary_key", .tbool, false⟩,
   ⟨"nullable", .tbool, false⟩,
   ⟨"description", .topt .tstr, false⟩]

/-- Embeds `StringType.model_fields`: base fields, then the discriminant and the
string-specific attributes. -/
def StringType.model_fields : List FieldSpec :=
  BaseDataType.model_fields ++
  [⟨"type", .tlit "string", true⟩,
   ⟨"max_length", .topt .tint, false⟩,
   ⟨"min_length", .topt .tint, false⟩,
   ⟨"pattern", .topt .tstr, false⟩]

/-- Embeds `IntegerType.model_fields`. -/
def IntegerType.model_fields : List FieldSpec :=
  BaseDataType.model_fields ++
  [⟨"type", .tlit "integer", true⟩,
   ⟨"minimum", .topt .tint, false⟩,
   ⟨"maximum", .topt .tint, false⟩]

/-- Embeds `FloatType.model_fields`. -/
def FloatType.model_fields : List FieldSpec :=
  BaseDataType.model_fields ++
  [⟨"type", .tlit "float", true⟩,
   ⟨"minimum", .topt .tfloat, false⟩,
   ⟨"maximum", .topt .tfloat, false⟩,
   ⟨"precision", .topt .tint, false⟩]

/-- Embeds `BooleanType.model_fields`. -/
def BooleanType.model_fields : List FieldSpec :=
  BaseDataType.model_fields ++ [⟨"type", .tlit "boolean", true⟩]

/-- Embeds `DateType.model_fields` (`format` has a default value). -/
def DateType.model_fields : List FieldSpec :=
  BaseDataType.model_fields ++
  [⟨"type", .tlit "date", true⟩,
   ⟨"format", .topt .tstr, false⟩]

/-- Embeds `DateTimeType.model_fields`. -/
def DateTimeType.model_fields : List FieldSpec :=
  BaseDataType.model_fields ++
  [⟨"type", .tlit "datetime", true⟩,
   ⟨"format", .topt .tstr, false⟩,
   ⟨"timezone", .topt .tstr, false⟩]

/-- The `SupportedDataTypes` enum (`model.py`): kind name to base model, in
declaration order. -/
def supportedDataTypes : List (String × List FieldSpec) :=
  [("string", StringType.model_fields),
   ("integer", IntegerType.model_fields),
   ("float", FloatType.model_fields),
   ("boolean", BooleanType.model_fields),
   ("date", DateType.model_fields),
   ("datetime", DateTimeType.model_fields)]

/-- Embeds `DatasetSchema.model_fields` (`schema/dataset.py`), in declaration order.
`columns : List[DataTypeUnion]` is declared with `Field(...)`, required. -/
def DatasetSchema.model_fields : List FieldSpec :=
  [⟨"fqn", .tstr, true⟩,
   ⟨"name", .tstr, true⟩,
   ⟨"description", .topt .tstr, false⟩,
   ⟨"version", .tstr, false⟩,
   ⟨"columns", .tcolumns, true⟩,
   ⟨"metadata", .topt .tdictAny, false⟩,
   ⟨"tags", .topt .tlistStr, false⟩]

/-- The slice of `config.py`'s `Config` consumed by the model builder:
the root-level required-attribute override set and the per-column-kind
override sets (an association list from kind name to field names). -/
structure Config where
  model_required_attributes : List String := []
  column_required_attributes : List (String × List String) := []

/-- Embeds `__create_dynamic_data_type` (`model.py`): every field named in
`required_fields` becomes required (default removed, annotation kept);
every other field keeps its original definition. -/
def create_dynamic_data_type (base_fields : List FieldSpec)
    (required_fields : List String) : List FieldSpec :=
  base_fields.map fun f =>
    if required_fields.contains f.fname then { f with required := true } else f

/-- Embeds `get_dynamic_data_types` (`model.py`): build the six dynamic column-kind
models from the per-kind override sets. -/
def get_dynamic_data_types (cfg : Config) : List (String × List FieldSpec) :=
  supportedDataTypes.map fun kt =>
    (kt.1, create_dynamic_data_type kt.2
      ((cfg.column_required_attributes.lookup kt.1).getD []))

/-- Embeds `get_dynamic_dataset_schema` (`model.py`): rebuild the root model.
`columns` is special-cased: named in the root override set it becomes a
required `List[DynamicDataTypeUnion]`, otherwise an
`Optional[List[DynamicDataTypeUnion]]` with default `None`. Every other
field is made required when named, and kept as declared otherwise. -/
def get_dynamic_dataset_schema (cfg : Config) : List FieldSpec :=
  DatasetSchema.model_fields.map fun f =>
    if f.fname = "columns" then
      if cfg.model_required_attributes.contains "columns" then
        ⟨f.fname, .tcolumns, true⟩
      else
        ⟨f.fname, .topt .tcolumns, false⟩
    else if cfg.model_required_attributes.contains f.fname then
      { f with required := true }
    else f

/-- The `expected_tags` context string pydantic attaches to a
`union_tag_invalid` error for the six-variant column union. -/
def expectedTagsStr : String :=
  "'string', 'integer', 'float', 'boolean', 'date', 'datetime'"

/-- The lax boolean string values accepted by the structural walk. -/
def laxBoolStrings : List String :=
  ["true", "false", "t", "f", "y", "n", "yes", "no", "on", "off", "1", "0"]

/-- Modelled from the spec: the structural walk of a single primitive
annotation, performed by the external pydantic library (`model_validate`),
which `src/py_schemax/validator.py` delegates to. Failure kinds follow
§4.2 of the specification and the error catalogue the source formatter
dispatches on: raw type mismatches (`<kind>_type`), lax-coercion failures
(`<kind>_parsing`), and `None` admitted by `Optional[...]`. The `tcolumns`
annotation never occurs below the root and is handled by
`checkRootValue`. -/
def typeCheckAtomic : FType → List LocItem → JValue → List ErrorDetails
  | .tstr, loc, v =>
      match v with
      | .jstr _ => []
      | _ => [⟨"string_type", loc, "Input should be a valid string", none, none⟩]
  | .tint, loc, v =>
      match v with
      | .jint _ => []
      | .jstr s =>
          if (strToInt? s).isSome then []
          else [⟨"int_parsing", loc,
            "Input should be a valid integer, unable to parse string as an integer",
            none, none⟩]
      | _ => [⟨"int_type", loc, "Input should be a valid integer", none, none⟩]
  | .tfloat, loc, v =>
      match v with
      | .jint _ => []
      | .jstr s =>
          if (strToInt? s).isSome then []
          else [⟨"float_parsing", loc,
            "Input should be a valid number, unable to parse string as a number",
            none, none⟩]
      | _ => [⟨"float_type", loc, "Input should be a valid number", none, none⟩]
  | .tbool, loc, v =>
      match v with
      | .jbool _ => []
      | .jstr s =>
          if laxBoolStrings.contains (strToLower s) then []
          else [⟨"bool_parsing", loc,
            "Input should be a valid boolean, unable to interpret input", none, none⟩]
      | .jint n =>
          if n = 0 ∨ n = 1 then []
          else [⟨"bool_parsing", loc,
            "Input should be a valid boolean, unable to interpret input", none, none⟩]
      | _ => [⟨"bool_type", loc, "Input should be a valid boolean", none, none⟩]
  | .tlit tag, loc, v =>
      match v with
      | .jstr s =>
          if s = tag then []
          else [⟨"literal_error", loc, "Input should be '" ++ tag ++ "'", none, none⟩]
      | _ => [⟨"literal_error", loc, "Input should be '" ++ tag ++ "'", none, none⟩]
  | .topt t, loc, v =>
      match v with
      | .jnull => []
      | _ => typeCheckAtomic t loc v
  | .tlistStr, loc, v =>
      match v with
      | .jarr xs =>
          xs.enum.flatMap fun ix =>
            match ix.2 with
            | .jstr _ => []
            | _ => [⟨"string_type", loc ++ [.idx ix.1],
                "Input should be a valid string", none, none⟩]
      | _ => [⟨"list_type", loc, "Input should be a valid list", none, none⟩]
  | .tdictAny, loc, v =>
      match v with
      | .jobj _ => []
      | _ => [⟨"dict_type", loc, "Input should be a valid dictionary", none, none⟩]
  | .tcolumns, _, _ => []

/-- Modelled from the spec: validation of one object against a pydantic
model's field list (`extra="forbid"`): declared fields in declaration order
(`missing` when a required field is absent, the annotation's check when
present), then an `extra_forbidden` error per undeclared input key. -/
def validateObjFields (fields : List FieldSpec) (loc : List LocItem)
    (kvs : List (String × JValue)) : List ErrorDetails :=
  (fields.flatMap fun f =>
    match kvs.lookup f.fname with
    | none =>
        if f.required then
          [⟨"missing", loc ++ [.key f.fname], "Field required", none, none⟩]
        else []
    | some v => typeCheckAtomic f.ftype (loc ++ [.key f.fname]) v) ++
  ((kvs.filter fun kv => ¬ fields.any (·.fname = kv.1)).map fun kv =>
    ⟨"extra_forbidden", loc ++ [.key kv.1], "Extra inputs are not permitted",
      none, none⟩)

/-- Modelled from the spec: dispatch of one column element through the
tagged union discriminated by `type`. A missing tag is `union_tag_not_found`;
a tag that is not one of the six literals is `union_tag_invalid` (with the
discriminator and expected tags in its context); a matching tag validates
the object against that dynamic kind model, with the tag name as an extra
location segment, as pydantic emits it. -/
def validateColumn (kinds : List (String × List FieldSpec)) (loc : List LocItem)
    (v : JValue) : List ErrorDetails :=
  match v with
  | .jobj kvs =>
      match kvs.lookup "type" with
      | none =>
          [⟨"union_tag_not_found", loc,
            "Unable to extract tag using discriminator 'type'",
            some "'type'", none⟩]
      | some (.jstr tag) =>
          match kinds.lookup tag with
          | some fields => validateObjFields fields (loc ++ [.key tag]) kvs
          | none =>
              [⟨"union_tag_invalid", loc,
                "Input tag '" ++ tag ++
                  "' found using 'type' does not match any of the expected tags",
                some "'type'", some expectedTagsStr⟩]
      | some _ =>
          [⟨"union_tag_invalid", loc,
            "Input tag found using 'type' does not match any of the expected tags",
            some "'type'", some expectedTagsStr⟩]
  | _ =>
      [⟨"model_attributes_type", loc,
        "Input should be a valid dictionary or object to extract fields from",
        none, none⟩]

/-- Modelled from the spec: the check of one root-level field value. The
`columns` annotation (plain or under `Optional`) descends into the column
union element-wise in ascending index order; every other annotation is the
primitive walk. -/
def checkRootValue (kinds : List (String × List FieldSpec)) :
    FType → List LocItem → JValue → List ErrorDetails
  | .tcolumns, loc, v =>
      match v with
      | .jarr xs =>
          xs.enum.flatMap fun ix => validateColumn kinds (loc ++ [.idx ix.1]) ix.2
      | _ => [⟨"list_type", loc, "Input should be a valid list", none, none⟩]
  | .topt t, loc, v =>
      match v with
      | .jnull => []
      | _ => checkRootValue kinds t loc v
  | t, loc, v => typeCheckAtomic t loc v

/-- Modelled from the spec: `DynamicDatasetSchema.model_validate(data)` as
invoked by `PydanticSchemaValidator.validate`, returning the pydantic error
list (empty on success). A non-object root is a single `model_type` error
with an empty location. -/
def model_validate (cfg : Config) (data : JValue) : List ErrorDetails :=
  match data with
  | .jobj kvs =>
      let fields := get_dynamic_dataset_schema cfg
      let kinds := get_dynamic_data_types cfg
      (fields.flatMap fun f =>
        match kvs.lookup f.fname with
        | none =>
            if f.required then
              [⟨"missing", [.key f.fname], "Field required", none, none⟩]
            else []
        | some v => checkRootValue kinds f.ftype [.key f.fname] v) ++
      ((kvs.filter fun kv => ¬ fields.any (·.fname = kv.1)).map fun kv =>
        ⟨"extra_forbidden", [.key kv.1], "Extra inputs are not permitted",
          none, none⟩)
  | _ =>
      [⟨"model_type", [],
        "Input should be a valid dictionary or instance of DynamicDatasetSchema",
        none, none⟩]

/-- Embeds `PydanticSchemaValidator.validate` (`validator.py`): run the structural
walk; on failure wrap every pydantic error with the formatted location,
the synthesized message and the stripped `{type, msg}` detail. -/
def PydanticSchemaValidator.validate (cfg : Config) (data : JValue)
    (file_path : String) : ValidationOutputSchema :=
  let errs := model_validate cfg data
  if errs.isEmpty then
    ⟨file_path, true, 0, []⟩
  else
    ⟨file_path, false, errs.length,
      errs.map fun e =>
        ⟨"validation_error", format_loc_as_jsonql e,
          format_pydantic_error_as_text e, some ⟨e.etype, e.msg⟩⟩⟩

/-- Embeds `UniqueFQNValidator.validate` (`validator.py`): the registry is the
`fqn -> first claimant` map, threaded explicitly. An absent or non-string
`fqn` is `missing_fqn`; an already-claimed `fqn` is `duplicate_fqn` naming
the original claimant (whoever it is) and leaves the registry unchanged;
otherwise the claim is recorded and the call succeeds. -/
def UniqueFQNValidator.validate (fqnMap : List (String × String))
    (data : List (String × JValue)) (file_path : String) :
    ValidationOutputSchema × List (String × String) :=
  match data.lookup "fqn" with
  | some (.jstr current_fqn) =>
      match fqnMap.lookup current_fqn with
      | some original =>
          (⟨file_path, false, 1,
            [⟨"duplicate_fqn", "$.fqn",
              "Duplicate FQN '" ++ current_fqn ++ "', already present at '"
                ++ original ++ "'", none⟩]⟩, fqnMap)
      | none => (⟨file_path, true, 0, []⟩, fqnMap ++ [(current_fqn, file_path)])
  | _ =>
      (⟨file_path, false, 1,
        [⟨"missing_fqn", "$.fqn",
          "Duplicate fqn check is enabled but fqn field is missing or invalid",
          none⟩]⟩, fqnMap)

/-- A dependency adjacency map (`DependencyValidator.__sorted_graph`):
sourceId to its referenced sourceIds, in insertion order. -/
abbrev Graph := List (String × List String)

/-- Python dict assignment `graph[file_path] = dependencies`: replace in
place when the key exists, append otherwise. -/
def DependencyValidator._add_dependency (g : Graph) (file_path : String)
    (dependencies : List String) : Graph :=
  if g.any (·.1 = file_path) then
    g.map fun e => if e.1 = file_path then (file_path, dependencies) else e
  else g ++ [(file_path, dependencies)]

/-- The nodes of the accumulated graph: every key and every referenced id. -/
def graphNodes (g : Graph) : List String :=
  (g.map (·.1) ++ g.flatMap (·.2)).eraseDups

/-- The ids referenced by a node (empty when the node holds no entry). -/
def graphNeighbors (g : Graph) (n : String) : List String :=
  ((g.lookup n).getD [])

/-- One pruning pass of the topological-feasibility probe: keep exactly the
nodes that still reference some remaining node. -/
def pruneStep (g : Graph) (ns : List String) : List String :=
  ns.filter fun n => (graphNeighbors g n).any (fun m => ns.contains m)

/-- Iterate pruning to a fixpoint (the fuel bounds the iteration count by
the node count; each productive pass strictly shrinks the list). -/
def pruneFix : Nat → Graph → List String → List String
  | 0, _, ns => ns
  | fuel + 1, g, ns =>
      let ns' := pruneStep g ns
      if ns'.length = ns.length then ns else pruneFix fuel g ns'

/-- The nodes surviving pruning: they all keep an edge into the remainder,
so they are exactly the nodes involved in (or reaching only) cycles. -/
def cycleResidue (g : Graph) : List String :=
  pruneFix (graphNodes g).length g (graphNodes g)

/-- Modelled from the spec: the external
`graphlib.TopologicalSorter(graph).prepare()` probe raises `CycleError`
exactly when the accumulated graph admits no topological ordering, i.e.
when pruning leaves a non-empty residue. -/
def hasCycle (g : Graph) : Bool :=
  ¬ (cycleResidue g).isEmpty

/-- Modelled from the spec: the cycle description carried by the
`CycleError` message (the spec requires only that a description of the
cycle is included). -/
def cycleDescription (g : Graph) : String :=
  String.intercalate ", " (cycleResidue g)

/-- Embeds `DependencyValidator._validate_field_type` (`validator.py`): the field
value must be a list of strings; the two failure outputs carry an empty
`file_path`, as in the source. -/
def DependencyValidator._validate_field_type (name : String) (value : JValue) :
    Option ValidationOutputSchema :=
  match value with
  | .jarr items =>
      if items.all (fun i => match i with | .jstr _ => true | _ => false) then
        none
      else
        some ⟨"", false, 1,
          [⟨"invalid_type", "$." ++ name,
            "'" ++ name ++ "' must be a list of strings", none⟩]⟩
  | _ =>
      some ⟨"", false, 1,
        [⟨"invalid_type", "$." ++ name, "'" ++ name ++ "' must be a list",
          none⟩]⟩

/-- The string elements of a `jarr` (total; coincides with the element list
whenever `_validate_field_type` accepted the value). -/
def jstrList : JValue → List String
  | .jarr xs => xs.filterMap fun x => match x with | .jstr s => some s | _ => none
  | _ => []

/-- Embeds `DependencyValidator._validate_circular_dependency` (`validator.py`):
run the topological-feasibility probe over the full accumulated graph. -/
def DependencyValidator._validate_circular_dependency (g : Graph)
    (name : String) : Option ValidationOutputSchema :=
  if hasCycle g then
    some ⟨"", false, 1,
      [⟨"circular_dependency_detected", "$." ++ name,
        "circular dependency present: " ++ cycleDescription g, none⟩]⟩
  else none

/-- Embeds `DependencyValidator._validate_for` (`validator.py`): field-type check,
then existence of every referenced path (first missing one is terminal),
then edge registration, then the cycle probe — in that order, so a failing
probe still leaves the edge registered. The filesystem is the external
collaborator `pathExists`. -/
def DependencyValidator._validate_for (pathExists : String → Bool)
    (field_name : String) (graph : Graph) (data : List (String × JValue))
    (file_path : String) : ValidationOutputSchema × Graph :=
  let depends_on := (data.lookup field_name).getD (.jarr [])
  match DependencyValidator._validate_field_type field_name depends_on with
  | some err => (err, graph)
  | none =>
      let deps := jstrList depends_on
      match deps.find? (fun dep => ¬ pathExists dep) with
      | some dep =>
          (⟨file_path, false, 1,
            [⟨"dependent_file_not_found", "$." ++ field_name,
              "File '" ++ dep ++ "' provided in '" ++ field_name
                ++ "' field not found", none⟩]⟩, graph)
      | none =>
          let g' := DependencyValidator._add_dependency graph file_path deps
          match DependencyValidator._validate_circular_dependency g' field_name with
          | some err => (err, g')
          | none => (⟨file_path, true, 0, []⟩, g')

/-- Embeds `merge_validation_outputs` (`utils.py`): keep the first non-empty
file path, AND the validity flags, sum the counts, concatenate the errors. -/
def merge_validation_outputs (outputs : List ValidationOutputSchema) :
    ValidationOutputSchema :=
  outputs.foldl
    (fun acc o =>
      ⟨if acc.file_path ≠ "" then acc.file_path else o.file_path,
       acc.valid && o.valid,
       acc.error_count + o.error_count,
       acc.errors ++ o.errors⟩)
    ⟨"", true, 0, []⟩

/-- The filesystem view consumed by `FileValidator`: whether the path
exists, its extension, and the parsed tree (`none` models a JSON/YAML
parse failure). File loading is an external collaborator. -/
structure FSEntry where
  present : Bool
  suffix : String
  parsed : Option JValue

/-- Embeds `FileValidator.validate` (`validator.py`), also returning
`validated_content` (set only when parsing succeeded). -/
def FileValidator.validate (fs : String → FSEntry) (file_path : String) :
    ValidationOutputSchema × Option JValue :=
  let e := fs file_path
  if e.present = false then
    (⟨file_path, false, 1,
      [⟨"file_not_found", "$", "'" ++ file_path ++ "' not found", none⟩]⟩,
     none)
  else if strToLower e.suffix = ".json" ∨ strToLower e.suffix = ".yml"
      ∨ strToLower e.suffix = ".yaml" then
    match e.parsed with
    | none =>
        (⟨file_path, false, 1,
          [⟨"parse_error", "$", "error parsing file", none⟩]⟩, none)
    | some v => (⟨file_path, true, 0, []⟩, some v)
  else
    (⟨file_path, false, 1,
      [⟨"unsupported_format", "$",
        "'" ++ file_path ++ "' of type '" ++ e.suffix ++ "' not supported",
        none⟩]⟩, none)

/-- Python truthiness on a parsed tree, for `validated_content or {}`. -/
def jvalueTruthy : JValue → Bool
  | .jnull => false
  | .jbool b => b
  | .jint n => n ≠ 0
  | .jstr s => s ≠ ""
  | .jarr xs => ¬ xs.isEmpty
  | .jobj kvs => ¬ kvs.isEmpty

/-- Embeds `file_validator.validated_content or {}` (`rulesets.py`). -/
def contentOrEmpty : Option JValue → JValue
  | some v => if jvalueTruthy v then v else .jobj []
  | none => .jobj []

/-- One configured rule, as applied to a file's parsed content and path. -/
abbrev Rule := JValue → String → ValidationOutputSchema

/-- The rule loop of `RuleSetBasedValidation.validate_file` (`rulesets.py`):
run the configured validators in order; the first invalid outcome is merged
with the file-identity envelope and returned, ending the loop. -/
def runValidators (rules : List Rule) (data : JValue) (file_path : String)
    (fileOut : ValidationOutputSchema) : ValidationOutputSchema :=
  match rules with
  | [] => fileOut
  | r :: rest =>
      let o := r data file_path
      if o.valid = false then merge_validation_outputs [fileOut, o]
      else runValidators rest data file_path fileOut

/-- Embeds `RuleSetBasedValidation.validate_file` (`rulesets.py`): a failed load is
terminal for the file; otherwise the configured rules run in order on the
parsed content. -/
def RuleSetBasedValidation.validate_file (fs : String → FSEntry)
    (rules : List Rule) (file_path : String) : ValidationOutputSchema :=
  let fo := FileValidator.validate fs file_path
  if fo.1.valid = false then fo.1
  else runValidators rules (contentOrEmpty fo.2) file_path fo.1

/-- Embeds `ValidationRuleSetEnum` (`rulesets.py`): `PSX_VAL1` is the structural
`PydanticSchemaValidator`, `PSX_VAL2` the `UniqueFQNValidator`. -/
inductive ValidationRuleSetEnum where
  | PSX_VAL1 : ValidationRuleSetEnum
  | PSX_VAL2 : ValidationRuleSetEnum
deriving Repr, DecidableEq

/-- The validator class each ruleset member denotes (`rulesets.py`). -/
def ruleValidatorName : ValidationRuleSetEnum → String
  | .PSX_VAL1 => "PydanticSchemaValidator"
  | .PSX_VAL2 => "UniqueFQNValidator"

/-- Embeds `DEFAULT_RULESETS` (`rulesets.py`). -/
def DEFAULT_RULESETS : List ValidationRuleSetEnum :=
  [.PSX_VAL1, .PSX_VAL2]

/-- The rule-selection logic of the `validate` command (`cli.py`):
an empty apply-list falls back to `DEFAULT_RULESETS`, and every rule named
in the ignore-list is filtered out of the applied list. -/
def selectRulesets (rule_apply rule_ignore : List ValidationRuleSetEnum) :
    List ValidationRuleSetEnum :=
  let rule_apply_enums := if rule_apply.isEmpty then DEFAULT_RULESETS else rule_apply
  let rule_ignore_enums := rule_ignore
  rule_apply_enums.filter fun r => ¬ rule_ignore_enums.contains r

/-- The run configuration with no required-attribute overrides. -/
def emptyConfig : Config := ⟨[], []⟩

/-- The reference list a dependency validation call will register:
`data.get(field_name, [])`, as a list of strings. -/
def depsOf (data : List (String × JValue)) (field_name : String) : List String :=
  jstrList ((data.lookup field_name).getD (.jarr []))

/-- The outcome invariant: the error count equals the length of the error
list, and the outcome is valid exactly when that list is empty. -/
def OutcomeWF (o : ValidationOutputSchema) : Prop :=
  o.error_count = o.errors.length ∧ (o.valid = true ↔ o.errors = [])

/-- A filesystem with one loadable JSON file everywhere (for pipeline
instances). -/
def okFS : String → FSEntry := fun _ => ⟨true, ".json", some (.jobj [("k", .jstr "v")])⟩

/-- A rule that accepts every record (for pipeline instances). -/
def okRule : Rule := fun _ p => ⟨p, true, 0, []⟩

/-- A rule that rejects every record with one error (for pipeline
instances). -/
def failRule : Rule := fun _ p => ⟨p, false, 1, [⟨"rule_failed", "$", "rule failed", none⟩]⟩

/-- C6: structural validation of
`{name:"T", fqn:"a.b", columns:[{name:"c", type:"integer", minimum:"x"}]}`
returns exactly one error, located at `$.columns[0].minimum` (the
column-kind tag `integer` is not emitted as a path segment) with message
`'minimum' expected to be 'int' type`. -/
theorem C6_integer_minimum_error :
    PydanticSchemaValidator.validate emptyConfig
      (.jobj [("name", .jstr "T"), ("fqn", .jstr "a.b"),
        ("columns", .jarr [.jobj [("name", .jstr "c"),
          ("type", .jstr "integer"), ("minimum", .jstr "x")]])]) "f" =
    ⟨"f", false, 1,
      [⟨"validation_error", "$.columns[0].minimum",
        "'minimum' expected to be 'int' type",
        some ⟨"int_parsing",
          "Input should be a valid integer, unable to parse string as an integer"⟩⟩]⟩ :=
  rfl

/-- C4 counterexample: the record `{name:"T", columns:[], extra:"x"}` with
default (empty) overrides yields two errors, not one — `fqn` is required by
the built schema model and the record lacks it. -/
theorem C4_counterexample :
    ((PydanticSchemaValidator.validate emptyConfig
      (.jobj [("name", .jstr "T"), ("columns", .jarr []),
        ("extra", .jstr "x")]) "f").errors.length = 2) ∧
    ¬ ((PydanticSchemaValidator.validate emptyConfig
      (.jobj [("name", .jstr "T"), ("columns", .jarr []),
        ("extra", .jstr "x")]) "f").errors.length = 1) :=
  ⟨rfl, by decide⟩

/-- C4 amended: structural validation of `{name:"T", columns:[], extra:"x"}`
with default overrides returns exactly two errors: the missing required
`fqn` at `$.fqn` (`'fqn' attribute missing`) and the extra attribute at
`$.extra` with message `invalid attribute 'extra' provided`. -/
theorem C4_amended_two_errors :
    PydanticSchemaValidator.validate emptyConfig
      (.jobj [("name", .jstr "T"), ("columns", .jarr []),
        ("extra", .jstr "x")]) "f" =
    ⟨"f", false, 2,
      [⟨"validation_error", "$.fqn", "'fqn' attribute missing",
        some ⟨"missing", "Field required"⟩⟩,
       ⟨"validation_error", "$.extra", "invalid attribute 'extra' provided",
        some ⟨"extra_forbidden", "Extra inputs are not permitted"⟩⟩]⟩ :=
  rfl

/-- C1 counterexample: with an override set that does not name `columns`,
the built schema model does not retain the base required `columns` field —
it holds `columns` as optional with default `None` — and the record
`{name:"T", fqn:"a.b"}` lacking `columns` passes structural validation. -/
theorem C1_counterexample :
    (FieldSpec.mk "columns" (.topt .tcolumns) false ∈
      get_dynamic_dataset_schema emptyConfig) ∧
    (FieldSpec.mk "columns" .tcolumns true ∈ DatasetSchema.model_fields) ∧
    ¬ (FieldSpec.mk "columns" .tcolumns true ∈
      get_dynamic_dataset_schema emptyConfig) ∧
    (PydanticSchemaValidator.validate emptyConfig
      (.jobj [("name", .jstr "T"), ("fqn", .jstr "a.b")]) "f").valid = true :=
  ⟨by decide, by decide, by decide, rfl⟩

/-- C1 amended: for every run configuration, a root field other than
`columns` that the root-level override set does not name is retained in the
built schema model exactly as declared; `columns`, when not named, is
instead demoted to an optional field with default `None`, so a record
lacking `columns` passes structural validation. -/
theorem C1_amended (cfg : Config) (f : FieldSpec)
    (hf : f ∈ DatasetSchema.model_fields)
    (hn : cfg.model_required_attributes.contains f.fname = false) :
    (f.fname ≠ "columns" → f ∈ get_dynamic_dataset_schema cfg) ∧
    (f.fname = "columns" →
      FieldSpec.mk "columns" (.topt .tcolumns) false ∈
        get_dynamic_dataset_schema cfg) ∧
    (PydanticSchemaValidator.validate emptyConfig
      (.jobj [("name", .jstr "T"), ("fqn", .jstr "a.b")]) "f").valid = true := by
  have hn' : ¬ f.fname ∈ cfg.model_required_attributes := by simpa using hn
  refine ⟨?_, ?_, rfl⟩
  · intro hname
    unfold get_dynamic_dataset_schema
    refine List.mem_map.mpr ⟨f, hf, ?_⟩
    simp [hname, hn']
  · intro hname
    have hcol : ¬ ("columns" : String) ∈ cfg.model_required_attributes := by
      rw [← hname]; exact hn'
    unfold get_dynamic_dataset_schema
    refine List.mem_map.mpr ⟨⟨"columns", .tcolumns, true⟩, by decide, ?_⟩
    simp [hcol]

/-- Witness for `C1_amended`: the `fqn` field with the empty configuration. -/
theorem C1_amended_witness :
    (("fqn" : String) ≠ "columns" →
      FieldSpec.mk "fqn" .tstr true ∈ get_dynamic_dataset_schema emptyConfig) ∧
    (("fqn" : String) = "columns" →
      FieldSpec.mk "columns" (.topt .tcolumns) false ∈
        get_dynamic_dataset_schema emptyConfig) ∧
    (PydanticSchemaValidator.validate emptyConfig
      (.jobj [("name", .jstr "T"), ("fqn", .jstr "a.b")]) "f").valid = true :=
  C1_amended emptyConfig ⟨"fqn", .tstr, true⟩ (by decide) rfl

/-- C2 counterexample: the fallback for an empty apply-list is
`DEFAULT_RULESETS`, which contains the uniqueness rule `PSX_VAL2` besides
the structural rule — it does not consist of structural validation only. -/
theorem C2_counterexample :
    selectRulesets [] [] = [.PSX_VAL1, .PSX_VAL2] ∧
    ruleValidatorName .PSX_VAL1 = "PydanticSchemaValidator" ∧
    ruleValidatorName .PSX_VAL2 = "UniqueFQNValidator" ∧
    selectRulesets [] [] ≠ [.PSX_VAL1] :=
  ⟨rfl, rfl, rfl, by decide⟩

/-- C2 amended: an empty apply-list falls back to the default rule set,
which consists of structural validation (`PSX_VAL1`) and fqn-uniqueness
validation (`PSX_VAL2`); and a rule named in the ignore-list is never
selected, even when also named in the apply-list. -/
theorem C2_amended (rule_apply rule_ignore : List ValidationRuleSetEnum) :
    (rule_apply = [] →
      selectRulesets rule_apply rule_ignore =
        DEFAULT_RULESETS.filter (fun r => ¬ rule_ignore.contains r)) ∧
    DEFAULT_RULESETS = [.PSX_VAL1, .PSX_VAL2] ∧
    (∀ r ∈ rule_ignore, r ∉ selectRulesets rule_apply rule_ignore) := by
  refine ⟨?_, rfl, ?_⟩
  · intro h
    subst h
    rfl
  · intro r hr hmem
    unfold selectRulesets at hmem
    simp only [List.mem_filter, decide_eq_true_eq] at hmem
    exact hmem.2 (by simpa using hr)

/-- Witness for `C2_amended`: empty apply-list and an ignore-list naming
the structural rule. -/
theorem C2_amended_witness :
    (selectRulesets [] [ValidationRuleSetEnum.PSX_VAL1] =
      DEFAULT_RULESETS.filter
        (fun r => ¬ [ValidationRuleSetEnum.PSX_VAL1].contains r)) ∧
    ValidationRuleSetEnum.PSX_VAL1 ∉
      selectRulesets [] [ValidationRuleSetEnum.PSX_VAL1] :=
  ⟨(C2_amended [] [.PSX_VAL1]).1 rfl,
   (C2_amended [] [.PSX_VAL1]).2.2 .PSX_VAL1 (by decide)⟩

/-- C3 counterexample: a repeat `validate` call from the same sourceId that
already holds the claim does report `duplicate_fqn` (naming that very
sourceId), contrary to the claim. -/
theorem C3_counterexample :
    (UniqueFQNValidator.validate
      (UniqueFQNValidator.validate [] [("fqn", .jstr "a.b")] "f1").2
      [("fqn", .jstr "a.b")] "f1").1 =
    ⟨"f1", false, 1,
      [⟨"duplicate_fqn", "$.fqn",
        "Duplicate FQN 'a.b', already present at 'f1'", none⟩]⟩ :=
  rfl

/-- C3 amended: a `validate` call whose record's fqn was previously claimed
returns the `duplicate_fqn` error at `$.fqn` whenever the claim exists —
regardless of whether the prior claimant is the same or a different
sourceId — with a message naming the fqn and the original claimant, and it
leaves the registry unchanged. -/
theorem C3_amended (st : List (String × String)) (data : List (String × JValue))
    (fp fqn orig : String)
    (hd : data.lookup "fqn" = some (.jstr fqn))
    (hc : st.lookup fqn = some orig) :
    UniqueFQNValidator.validate st data fp =
      (⟨fp, false, 1,
        [⟨"duplicate_fqn", "$.fqn",
          "Duplicate FQN '" ++ fqn ++ "', already present at '" ++ orig ++ "'",
          none⟩]⟩, st) := by
  simp [UniqueFQNValidator.validate, hd, hc]

/-- Witness for `C3_amended`: the registry already maps `a.b` to `f1` and
the same `f1` revalidates. -/
theorem C3_amended_witness :
    UniqueFQNValidator.validate [("a.b", "f1")] [("fqn", .jstr "a.b")] "f1" =
      (⟨"f1", false, 1,
        [⟨"duplicate_fqn", "$.fqn",
          "Duplicate FQN '" ++ "a.b" ++ "', already present at '" ++ "f1" ++ "'",
          none⟩]⟩, [("a.b", "f1")]) :=
  C3_amended [("a.b", "f1")] [("fqn", .jstr "a.b")] "f1" "a.b" "f1" rfl rfl

/-- C8: two records sharing fqn `a.b`, processed A then B with distinct
sourceIds through a fresh Uniqueness Validator: A is valid, B gets exactly
one `duplicate_fqn` error naming A's sourceId, and A's claim is still held
afterwards (first claim wins, never released). -/
theorem C8_first_claim_wins (dataA dataB : List (String × JValue))
    (fpA fpB : String)
    (hA : dataA.lookup "fqn" = some (.jstr "a.b"))
    (hB : dataB.lookup "fqn" = some (.jstr "a.b"))
    (hne : fpA ≠ fpB) :
    ((UniqueFQNValidator.validate [] dataA fpA).1 = ⟨fpA, true, 0, []⟩) ∧
    ((UniqueFQNValidator.validate (UniqueFQNValidator.validate [] dataA fpA).2
        dataB fpB).1 =
      ⟨fpB, false, 1,
        [⟨"duplicate_fqn", "$.fqn",
          "Duplicate FQN 'a.b', already present at '" ++ fpA ++ "'", none⟩]⟩) ∧
    ((UniqueFQNValidator.validate (UniqueFQNValidator.validate [] dataA fpA).2
        dataB fpB).2.lookup "a.b" = some fpA) := by
  simp [UniqueFQNValidator.validate, hA, hB, List.lookup]

/-- Witness for `C8_first_claim_wins`: concrete records and sourceIds. -/
theorem C8_first_claim_wins_witness :
    ((UniqueFQNValidator.validate [] [("fqn", .jstr "a.b")] "fA").1 =
      ⟨"fA", true, 0, []⟩) ∧
    ((UniqueFQNValidator.validate
        (UniqueFQNValidator.validate [] [("fqn", .jstr "a.b")] "fA").2
        [("fqn", .jstr "a.b")] "fB").1 =
      ⟨"fB", false, 1,
        [⟨"duplicate_fqn", "$.fqn",
          "Duplicate FQN 'a.b', already present at '" ++ "fA" ++ "'", none⟩]⟩) ∧
    ((UniqueFQNValidator.validate
        (UniqueFQNValidator.validate [] [("fqn", .jstr "a.b")] "fA").2
        [("fqn", .jstr "a.b")] "fB").2.lookup "a.b" = some "fA") :=
  C8_first_claim_wins [("fqn", .jstr "a.b")] [("fqn", .jstr "a.b")]
    "fA" "fB" rfl rfl (by decide)

/-- C10: an `extra_forbidden` error whose single root-level location
segment is one of the six column-kind tag names is reported at `$` — the
formatter drops every string segment equal to a tag name, even outside a
column context — while the message still names the field; end-to-end, a
record with such an extra root field gets exactly that error. -/
theorem C10_tag_named_extra_field (s : String) (e : ErrorDetails)
    (hs : supportedDataTypeNames.contains s = true)
    (het : e.etype = "extra_forbidden")
    (hloc : e.loc = [.key s]) :
    format_loc_as_jsonql e = "$" ∧
    format_pydantic_error_as_text e =
      "invalid attribute '" ++ s ++ "' provided" ∧
    (PydanticSchemaValidator.validate emptyConfig
      (.jobj [("name", .jstr "T"), ("fqn", .jstr "a.b"),
        ("columns", .jarr []), (s, .jint 1)]) "f").errors =
      [⟨"validation_error", "$", "invalid attribute '" ++ s ++ "' provided",
        some ⟨"extra_forbidden", "Extra inputs are not permitted"⟩⟩] := by
  obtain ⟨et, lc, m, d, t⟩ := e
  simp only at het hloc
  subst het hloc
  simp only [supportedDataTypeNames, List.contains_cons, List.elem_nil,
    Bool.or_eq_true, beq_iff_eq, Bool.false_eq_true, or_false] at hs
  rcases hs with rfl | rfl | rfl | rfl | rfl | rfl <;>
    exact ⟨rfl, rfl, rfl⟩

/-- Witness for `C10_tag_named_extra_field`: the tag name `integer` as an
extra root attribute. -/
theorem C10_tag_named_extra_field_witness :
    format_loc_as_jsonql
      ⟨"extra_forbidden", [.key "integer"], "Extra inputs are not permitted",
        none, none⟩ = "$" ∧
    format_pydantic_error_as_text
      ⟨"extra_forbidden", [.key "integer"], "Extra inputs are not permitted",
        none, none⟩ = "invalid attribute '" ++ "integer" ++ "' provided" ∧
    (PydanticSchemaValidator.validate emptyConfig
      (.jobj [("name", .jstr "T"), ("fqn", .jstr "a.b"),
        ("columns", .jarr []), ("integer", .jint 1)]) "f").errors =
      [⟨"validation_error", "$",
        "invalid attribute '" ++ "integer" ++ "' provided",
        some ⟨"extra_forbidden", "Extra inputs are not permitted"⟩⟩] :=
  C10_tag_named_extra_field "integer"
    ⟨"extra_forbidden", [.key "integer"], "Extra inputs are not permitted",
      none, none⟩ rfl rfl rfl

/-- One merge step preserves the outcome invariant. -/
theorem mergeStep_wf (acc o : ValidationOutputSchema)
    (ha : OutcomeWF acc) (ho : OutcomeWF o) :
    OutcomeWF ⟨if acc.file_path ≠ "" then acc.file_path else o.file_path,
      acc.valid && o.valid, acc.error_count + o.error_count,
      acc.errors ++ o.errors⟩ := by
  obtain ⟨ha1, ha2⟩ := ha
  obtain ⟨ho1, ho2⟩ := ho
  constructor
  · simp [ha1, ho1]
  · simp [Bool.and_eq_true, ha2, ho2, List.append_eq_nil]

/-- The merge fold preserves the outcome invariant. -/
theorem merge_foldl_wf (outs : List ValidationOutputSchema)
    (acc : ValidationOutputSchema) (hacc : OutcomeWF acc)
    (h : ∀ o ∈ outs, OutcomeWF o) :
    OutcomeWF (outs.foldl
      (fun acc o =>
        ⟨if acc.file_path ≠ "" then acc.file_path else o.file_path,
         acc.valid && o.valid, acc.error_count + o.error_count,
         acc.errors ++ o.errors⟩) acc) := by
  induction outs generalizing acc with
  | nil => simpa using hacc
  | cons x xs ih =>
      exact ih _ (mergeStep_wf acc x hacc (h x (by simp)))
        (fun o ho => h o (by simp [ho]))

/-- The function `merge_validation_outputs` preserves the outcome invariant. -/
theorem merge_validation_outputs_wf (outs : List ValidationOutputSchema)
    (h : ∀ o ∈ outs, OutcomeWF o) :
    OutcomeWF (merge_validation_outputs outs) :=
  merge_foldl_wf outs ⟨"", true, 0, []⟩ ⟨rfl, by simp⟩ h

/-- Every `FileValidator` outcome satisfies the invariant. -/
theorem fileValidator_wf (fs : String → FSEntry) (fp : String) :
    OutcomeWF (FileValidator.validate fs fp).1 := by
  unfold FileValidator.validate
  dsimp only
  split
  · exact ⟨rfl, by simp⟩
  · split
    · split
      · exact ⟨rfl, by simp⟩
      · exact ⟨rfl, by simp⟩
    · exact ⟨rfl, by simp⟩

/-- Every `PydanticSchemaValidator` outcome satisfies the invariant. -/
theorem pydanticValidator_wf (cfg : Config) (data : JValue) (fp : String) :
    OutcomeWF (PydanticSchemaValidator.validate cfg data fp) := by
  unfold PydanticSchemaValidator.validate
  dsimp only
  by_cases h : (model_validate cfg data).isEmpty
  · simp [h, OutcomeWF]
  · refine ⟨by simp [h], ?_⟩
    simp only [h, if_false]
    constructor
    · intro hfalse
      exact absurd hfalse (by simp)
    · intro hnil
      rcases hl : model_validate cfg data with _ | ⟨a, as⟩
      · rw [hl] at h
        simp at h
      · rw [hl] at hnil
        simp at hnil

/-- Every `UniqueFQNValidator` outcome satisfies the invariant. -/
theorem uniqueValidator_wf (st : List (String × String))
    (data : List (String × JValue)) (fp : String) :
    OutcomeWF (UniqueFQNValidator.validate st data fp).1 := by
  unfold UniqueFQNValidator.validate
  split
  · split
    · exact ⟨rfl, by simp⟩
    · exact ⟨rfl, by simp⟩
  · exact ⟨rfl, by simp⟩

/-- A failed field-type check produces an invariant-satisfying outcome. -/
theorem validate_field_type_wf (name : String) (v : JValue)
    (o : ValidationOutputSchema)
    (h : DependencyValidator._validate_field_type name v = some o) :
    OutcomeWF o := by
  unfold DependencyValidator._validate_field_type at h
  split at h
  · split at h
    · cases h
    · cases h
      exact ⟨rfl, by simp⟩
  · cases h
    exact ⟨rfl, by simp⟩

/-- A failed cycle probe produces an invariant-satisfying outcome. -/
theorem validate_circular_wf (g : Graph) (name : String)
    (o : ValidationOutputSchema)
    (h : DependencyValidator._validate_circular_dependency g name = some o) :
    OutcomeWF o := by
  unfold DependencyValidator._validate_circular_dependency at h
  split at h
  · cases h
    exact ⟨rfl, by simp⟩
  · cases h

/-- Every `DependencyValidator` outcome satisfies the invariant. -/
theorem dependencyValidator_wf (pe : String → Bool) (field_name : String)
    (g : Graph) (data : List (String × JValue)) (fp : String) :
    OutcomeWF (DependencyValidator._validate_for pe field_name g data fp).1 := by
  unfold DependencyValidator._validate_for
  dsimp only
  split
  · next err heq => exact validate_field_type_wf _ _ _ heq
  · split
    · exact ⟨rfl, by simp⟩
    · split
      · next err heq => exact validate_circular_wf _ _ _ heq
      · exact ⟨rfl, by simp⟩

/-- The rule loop preserves the outcome invariant. -/
theorem runValidators_wf (rules : List Rule) (data : JValue) (fp : String)
    (fo : ValidationOutputSchema) (hfo : OutcomeWF fo)
    (h : ∀ r ∈ rules, ∀ d p, OutcomeWF (r d p)) :
    OutcomeWF (runValidators rules data fp fo) := by
  induction rules with
  | nil => simpa [runValidators] using hfo
  | cons r rest ih =>
      unfold runValidators
      by_cases hv : (r data fp).valid = false
      · simp only [hv, if_true]
        refine merge_validation_outputs_wf [fo, r data fp] ?_
        intro o ho
        simp only [List.mem_cons, List.not_mem_nil, or_false] at ho
        rcases ho with rfl | rfl
        · exact hfo
        · exact h r (by simp) data fp
      · simp only [hv, if_false]
        exact ih (fun q hq => h q (by simp [hq]))

/-- C9: every outcome returned by the file loader, the structural
validator, the uniqueness validator, the dependency validator, the outcome
merge (of invariant-satisfying outcomes) and the per-file pipeline
satisfies `error_count = errors.length` and `valid ↔ errors = []`. -/
theorem C9_outcome_invariant :
    (∀ fs fp, OutcomeWF (FileValidator.validate fs fp).1) ∧
    (∀ cfg data fp, OutcomeWF (PydanticSchemaValidator.validate cfg data fp)) ∧
    (∀ st data fp, OutcomeWF (UniqueFQNValidator.validate st data fp).1) ∧
    (∀ pe field_name g data fp,
      OutcomeWF (DependencyValidator._validate_for pe field_name g data fp).1) ∧
    (∀ outs, (∀ o ∈ outs, OutcomeWF o) →
      OutcomeWF (merge_validation_outputs outs)) ∧
    (∀ fs rules fp, (∀ r ∈ rules, ∀ d p, OutcomeWF (r d p)) →
      OutcomeWF (RuleSetBasedValidation.validate_file fs rules fp)) := by
  refine ⟨fileValidator_wf, pydanticValidator_wf, uniqueValidator_wf,
    dependencyValidator_wf, merge_validation_outputs_wf, ?_⟩
  intro fs rules fp h
  unfold RuleSetBasedValidation.validate_file
  by_cases hv : (FileValidator.validate fs fp).1.valid = false
  · simpa [hv] using fileValidator_wf fs fp
  · simp only [hv, if_false]
    exact runValidators_wf rules _ fp _ (fileValidator_wf fs fp) h

/-- Witness for `C9_outcome_invariant`: a concrete merge and a concrete
pipeline run. -/
theorem C9_outcome_invariant_witness :
    OutcomeWF (merge_validation_outputs
      [⟨"f", true, 0, []⟩,
       ⟨"f", false, 1, [⟨"rule_failed", "$", "rule failed", none⟩]⟩]) ∧
    OutcomeWF (RuleSetBasedValidation.validate_file okFS [failRule] "f") :=
  ⟨C9_outcome_invariant.2.2.2.2.1 _
    (by
      intro o ho
      simp only [List.mem_cons, List.not_mem_nil, or_false] at ho
      rcases ho with rfl | rfl
      · exact ⟨rfl, by simp⟩
      · exact ⟨rfl, by simp⟩),
   C9_outcome_invariant.2.2.2.2.2 okFS [failRule] "f"
    (by
      intro r hr d p
      simp only [List.mem_cons, List.not_mem_nil, or_false] at hr
      subst hr
      exact ⟨rfl, by simp [failRule]⟩)⟩

/-- When every configured rule accepts, the rule loop returns the file
envelope unchanged. -/
theorem runValidators_all_valid (rules : List Rule) (data : JValue)
    (fp : String) (fo : ValidationOutputSchema)
    (h : ∀ r ∈ rules, (r data fp).valid = true) :
    runValidators rules data fp fo = fo := by
  induction rules with
  | nil => rfl
  | cons r rest ih =>
      unfold runValidators
      have hr : (r data fp).valid = true := h r (by simp)
      simp only [hr, Bool.true_eq_false, if_false]
      exact ih (fun q hq => h q (by simp [hq]))

/-- The rule loop stops at the first rejecting rule and returns its outcome
merged with the file envelope, whatever rules follow. -/
theorem runValidators_first_fail (pre post : List Rule) (r : Rule)
    (data : JValue) (fp : String) (fo : ValidationOutputSchema)
    (hpre : ∀ q ∈ pre, (q data fp).valid = true)
    (hr : (r data fp).valid = false) :
    runValidators (pre ++ r :: post) data fp fo =
      merge_validation_outputs [fo, r data fp] := by
  induction pre with
  | nil =>
      unfold runValidators
      simp [hr]
  | cons q qs ih =>
      unfold runValidators
      have hq : (q data fp).valid = true := hpre q (by simp)
      simp only [List.cons_append, hq, Bool.true_eq_false, if_false]
      exact ih (fun p hp => hpre p (by simp [hp]))

/-- C7: a failed file load is terminal — the pipeline returns the loading
failure and no configured rule influences the result; on a successful load
the rules run in order, an all-accepting rule list returns the file
envelope, and the first rejecting rule ends processing with its errors
merged in, with the rules after it never affecting the outcome. -/
theorem C7_pipeline_shortcircuit (fs : String → FSEntry) (fp : String)
    (rules pre post post' : List Rule) (r : Rule) :
    ((FileValidator.validate fs fp).1.valid = false →
      RuleSetBasedValidation.validate_file fs rules fp =
        (FileValidator.validate fs fp).1) ∧
    ((FileValidator.validate fs fp).1.valid = true →
      (∀ q ∈ rules,
        (q (contentOrEmpty (FileValidator.validate fs fp).2) fp).valid = true) →
      RuleSetBasedValidation.validate_file fs rules fp =
        (FileValidator.validate fs fp).1) ∧
    ((FileValidator.validate fs fp).1.valid = true →
      (∀ q ∈ pre,
        (q (contentOrEmpty (FileValidator.validate fs fp).2) fp).valid = true) →
      (r (contentOrEmpty (FileValidator.validate fs fp).2) fp).valid = false →
      RuleSetBasedValidation.validate_file fs (pre ++ r :: post) fp =
        merge_validation_outputs [(FileValidator.validate fs fp).1,
          r (contentOrEmpty (FileValidator.validate fs fp).2) fp] ∧
      RuleSetBasedValidation.validate_file fs (pre ++ r :: post) fp =
        RuleSetBasedValidation.validate_file fs (pre ++ r :: post') fp) := by
  refine ⟨?_, ?_, ?_⟩
  · intro hv
    unfold RuleSetBasedValidation.validate_file
    simp [hv]
  · intro hv hall
    unfold RuleSetBasedValidation.validate_file
    simp only [hv, Bool.true_eq_false, if_false]
    exact runValidators_all_valid rules _ fp _ hall
  · intro hv hpre hr
    have key : ∀ post₀ : List Rule,
        RuleSetBasedValidation.validate_file fs (pre ++ r :: post₀) fp =
          merge_validation_outputs [(FileValidator.validate fs fp).1,
            r (contentOrEmpty (FileValidator.validate fs fp).2) fp] := by
      intro post₀
      unfold RuleSetBasedValidation.validate_file
      simp only [hv, Bool.true_eq_false, if_false]
      exact runValidators_first_fail pre post₀ r _ fp _ hpre hr
    exact ⟨key post, (key post).trans (key post').symm⟩

/-- Witness for `C7_pipeline_shortcircuit`: a loadable file, one accepting
rule before a rejecting rule, and differing rule tails. -/
theorem C7_pipeline_shortcircuit_witness :
    RuleSetBasedValidation.validate_file okFS ([okRule] ++ failRule :: [okRule]) "f" =
      merge_validation_outputs [(FileValidator.validate okFS "f").1,
        failRule (contentOrEmpty (FileValidator.validate okFS "f").2) "f"] ∧
    RuleSetBasedValidation.validate_file okFS ([okRule] ++ failRule :: [okRule]) "f" =
      RuleSetBasedValidation.validate_file okFS ([okRule] ++ failRule :: []) "f" :=
  (C7_pipeline_shortcircuit okFS "f" [] [okRule] [okRule] [] failRule).2.2
    rfl
    (by
      intro q hq
      simp only [List.mem_cons, List.not_mem_nil, or_false] at hq
      subst hq
      rfl)
    rfl

/-- Replacing an existing key's entry makes the lookup return the new
dependency list. -/
theorem lookup_map_replace (fp : String) (deps : List String) (g : Graph)
    (h : g.any (·.1 = fp) = true) :
    (g.map fun e => if e.1 = fp then (fp, deps) else e).lookup fp = some deps := by
  induction g with
  | nil => simp at h
  | cons e t ih =>
      obtain ⟨k, v⟩ := e
      by_cases hk : k = fp
      · have hk' : ((k, v) : String × List String).1 = fp := hk
        simp only [List.map_cons, if_pos hk']
        simp [List.lookup]
      · have ht : t.any (·.1 = fp) = true := by simpa [hk] using h
        have hbk : (fp == k) = false :=
          beq_eq_false_iff_ne.mpr (fun hf => hk hf.symm)
        simp only [List.map_cons, if_neg hk]
        simp only [List.lookup, hbk]
        exact ih ht

/-- Appending a fresh key's entry makes the lookup return its dependency
list. -/
theorem lookup_append_new (fp : String) (deps : List String) (g : Graph)
    (h : g.any (·.1 = fp) = false) :
    (g ++ [(fp, deps)]).lookup fp = some deps := by
  induction g with
  | nil => simp [List.lookup]
  | cons e t ih =>
      obtain ⟨k, v⟩ := e
      simp only [List.any_cons, Bool.or_eq_false_iff, decide_eq_false_iff_not] at h
      have hbk : (fp == k) = false :=
        beq_eq_false_iff_ne.mpr (fun hf => h.1 hf.symm)
      simp only [List.cons_append, List.lookup, hbk]
      exact ih h.2

/-- After `_add_dependency`, the registered edge is retrievable. -/
theorem add_dependency_lookup (g : Graph) (fp : String) (deps : List String) :
    (DependencyValidator._add_dependency g fp deps).lookup fp = some deps := by
  unfold DependencyValidator._add_dependency
  by_cases h : g.any (·.1 = fp) = true
  · simp only [h, if_true]
    exact lookup_map_replace fp deps g h
  · simp only [h, if_false]
    refine lookup_append_new fp deps g ?_
    cases hh : g.any (·.1 = fp)
    · rfl
    · exact absurd hh h

/-- C5: a dependency-validator call whose field is a list of strings and
whose references all exist registers the edge before the cycle probe runs:
the final state always contains the edge (even on failure); the call
returns valid when the accumulated graph stays acyclic, and returns the
`circular_dependency_detected` error when the insertion closes a cycle —
with the edge still registered. -/
theorem C5_dependency_insertion (pe : String → Bool) (field_name : String)
    (g : Graph) (data : List (String × JValue)) (fp : String)
    (hty : DependencyValidator._validate_field_type field_name
      ((data.lookup field_name).getD (.jarr [])) = none)
    (hex : ∀ d ∈ depsOf data field_name, pe d = true) :
    (DependencyValidator._validate_for pe field_name g data fp).2 =
      DependencyValidator._add_dependency g fp (depsOf data field_name) ∧
    (DependencyValidator._add_dependency g fp
      (depsOf data field_name)).lookup fp = some (depsOf data field_name) ∧
    (hasCycle (DependencyValidator._add_dependency g fp
        (depsOf data field_name)) = false →
      (DependencyValidator._validate_for pe field_name g data fp).1 =
        ⟨fp, true, 0, []⟩) ∧
    (hasCycle (DependencyValidator._add_dependency g fp
        (depsOf data field_name)) = true →
      (DependencyValidator._validate_for pe field_name g data fp).1 =
        ⟨"", false, 1,
          [⟨"circular_dependency_detected", "$." ++ field_name,
            "circular dependency present: " ++
              cycleDescription (DependencyValidator._add_dependency g fp
                (depsOf data field_name)), none⟩]⟩) := by
  have hfind : (jstrList ((data.lookup field_name).getD (.jarr []))).find?
      (fun dep => ¬ pe dep) = none := by
    rw [List.find?_eq_none]
    intro x hx
    simp [hex x hx]
  have heq : DependencyValidator._validate_for pe field_name g data fp =
      match DependencyValidator._validate_circular_dependency
        (DependencyValidator._add_dependency g fp (depsOf data field_name))
        field_name with
      | some err => (err,
          DependencyValidator._add_dependency g fp (depsOf data field_name))
      | none => (⟨fp, true, 0, []⟩,
          DependencyValidator._add_dependency g fp (depsOf data field_name)) := by
    unfold DependencyValidator._validate_for
    dsimp only
    rw [hty, hfind]
    rfl
  refine ⟨?_, add_dependency_lookup g fp _, ?_, ?_⟩
  · rw [heq]
    unfold DependencyValidator._validate_circular_dependency
    split <;> rfl
  · intro hc
    rw [heq]
    unfold DependencyValidator._validate_circular_dependency
    simp [hc]
  · intro hc
    rw [heq]
    unfold DependencyValidator._validate_circular_dependency
    simp [hc]

/-- Witness for `C5_dependency_insertion`: the third edge of a three-file
`depends_on` cycle; the call fails with `circular_dependency_detected` and
the edge `c -> [a]` is still registered. -/
theorem C5_dependency_insertion_witness :
    (DependencyValidator._validate_for (fun _ => true) "depends_on"
      [("a", ["b"]), ("b", ["c"])] [("depends_on", .jarr [.jstr "a"])] "c").2 =
      DependencyValidator._add_dependency [("a", ["b"]), ("b", ["c"])] "c"
        (depsOf [("depends_on", .jarr [.jstr "a"])] "depends_on") ∧
    (DependencyValidator._add_dependency [("a", ["b"]), ("b", ["c"])] "c"
      (depsOf [("depends_on", .jarr [.jstr "a"])] "depends_on")).lookup "c" =
      some (depsOf [("depends_on", .jarr [.jstr "a"])] "depends_on") ∧
    (DependencyValidator._validate_for (fun _ => true) "depends_on"
      [("a", ["b"]), ("b", ["c"])] [("depends_on", .jarr [.jstr "a"])] "c").1 =
      ⟨"", false, 1,
        [⟨"circular_dependency_detected", "$." ++ "depends_on",
          "circular dependency present: " ++
            cycleDescription (DependencyValidator._add_dependency
              [("a", ["b"]), ("b", ["c"])] "c"
              (depsOf [("depends_on", .jarr [.jstr "a"])] "depends_on")),
          none⟩]⟩ := by
  have h := C5_dependency_insertion (fun _ => true) "depends_on"
    [("a", ["b"]), ("b", ["c"])] [("depends_on", .jarr [.jstr "a"])] "c"
    rfl (by intro d hd; rfl)
  exact ⟨h.1, h.2.1, h.2.2.2 (by decide)⟩

end PySchemax
